import Mathlib

/-!
Shallow embedding of the repository's single source file,
local-test-server.py: a local static HTTP test server built on
SimpleHTTPRequestHandler.  Effectful Python code is modelled as a pure
function from an environment (filesystem and socket facts the process
cannot control) to the list of observable events it performs, paired with
how the routine terminates.
-/

namespace LocalTestServer

/-- Kinds of Python exception relevant to the script: OSError (carrying
its str message, inspected by the handler), OverflowError (raised by the
CPython socket layer for ports outside 0-65535) and KeyboardInterrupt. -/
inductive PyExn where
  | osError (msg : String)
  | overflowError
  | keyboardInterrupt
deriving DecidableEq, Repr

/-- Observable actions of the process: a line written by print, the
successful creation of the listening TCP socket on a port, a call to
webbrowser.open, and entry into httpd.serve_forever. -/
inductive Event where
  | printLine (s : String)
  | bindSocket (port : Int)
  | openBrowser (url : String)
  | serveForever
deriving DecidableEq, Repr

/-- How start_test_server terminates: a normal Python return, or an
exception that no except clause catches, propagating to the top level. -/
inductive Outcome where
  | returned
  | uncaught (e : PyExn)
deriving DecidableEq, Repr

/-- How the whole process terminates: sys.exit or falling off the end of
the script gives an exit code; an uncaught exception prints a traceback
and the interpreter dies abnormally. -/
inductive ProcResult where
  | exited (code : Nat)
  | crashed (e : PyExn)
deriving DecidableEq, Repr

/-- Environment facts outside the program's control: whether
test-page.html exists in the working directory, what
socketserver.TCPServer does for an in-range port (none means the bind
succeeds), whether webbrowser.open raises, and the exception that
eventually ends the blocking serve_forever loop. -/
structure Env where
  testPageExists : Bool
  bindOutcome : Option PyExn
  browserFails : Bool
  serveExn : PyExn
deriving Repr

/-- Boolean substring check on char lists, used to model Python's
needle in haystack test on strings. -/
def listContainsSub (needle : List Char) : List Char → Bool
  | [] => needle.isEmpty
  | c :: cs => needle.isPrefixOf (c :: cs) || listContainsSub needle cs

/-- Models Python's membership test needle in str(e) for strings. -/
def strContainsSub (hay needle : String) : Bool :=
  listContainsSub needle.toList hay.toList

/-- The three header lines added by DSPTestHandler.end_headers
(lines 20-22 of local-test-server.py), in source order. -/
def corsHeaders : List (String × String) :=
  [("Access-Control-Allow-Origin", "*"),
   ("Access-Control-Allow-Methods", "GET, POST, OPTIONS"),
   ("Access-Control-Allow-Headers", "Content-Type")]

/-- Embeds DSPTestHandler.end_headers: the headers already queued by the
base library for this response are followed by the three send_header
calls, after which super().end_headers() flushes them to the wire. -/
def DSPTestHandler_end_headers (queued : List (String × String)) :
    List (String × String) :=
  queued ++ corsHeaders

/-- Header block of the response the server produces for a request:
whatever headers the underlying library queued for that method and path,
then end_headers runs.  The library's queued headers are an arbitrary
function of the request, so the theorem quantifies over it. -/
def responseHeaders (libHeaders : String → String → List (String × String))
    (method path : String) : List (String × String) :=
  DSPTestHandler_end_headers (libHeaders method path)

/-- Python %-formatting restricted to the directives the script's logging
actually meets: %s consumes one argument, %% is a literal percent; any
other directive, or an argument-count mismatch, is a formatting error
(none), as in CPython. -/
def percentFmt : List Char → List String → Option String
  | [], [] => some ""
  | [], _ :: _ => none
  | '%' :: 's' :: rest, a :: as => (percentFmt rest as).map (fun t => a ++ t)
  | '%' :: '%' :: rest, as => (percentFmt rest as).map (fun t => "%" ++ t)
  | '%' :: _, _ => none
  | c :: rest, as => (percentFmt rest as).map (fun t => String.singleton c ++ t)

/-- Embeds DSPTestHandler.log_message (line 26): the line printed is the
emoji prefix followed by format % args. -/
def DSPTestHandler_log_message (fmt : String) (args : List String) :
    Option String :=
  (percentFmt fmt.toList args).map (fun s => "🌐 " ++ s)

/-- The underlying library's default request logging:
BaseHTTPRequestHandler.log_request calls
log_message with format string "%s" %s %s (requestline quoted) and the
request line, status code and size as arguments; the subclass's
log_message then produces the line. -/
def log_request (requestline code size : String) : Option String :=
  DSPTestHandler_log_message "\x22%s\x22 %s %s" [requestline, code, size]

/-- Embeds the construction socketserver.TCPServer(("", port), ...) for
an unbounded Python int port: the CPython socket layer raises
OverflowError when the port is outside 0-65535 before any bind is
attempted; otherwise the environment decides whether bind succeeds (none)
or raises an OSError. -/
def tcpServerCreate (env : Env) (port : Int) : Option PyExn :=
  if port < 0 || port > 65535 then some PyExn.overflowError
  else env.bindOutcome

/-- The twelve print calls of lines 40-51, in order. -/
def startupBanner (port : Int) : List Event :=
  [Event.printLine "🚀 DSP Extension Test Server Starting...",
   Event.printLine ("📡 Server running at: http://localhost:" ++ toString port),
   Event.printLine ("🧪 Test page: http://localhost:" ++ toString port ++ "/test-page.html"),
   Event.printLine "📝 Your HTML file: Place your DSP HTML file in this directory",
   Event.printLine "",
   Event.printLine "🔧 Extension Setup:",
   Event.printLine "1. Load your extension in the browser",
   Event.printLine "2. Open the test URL above",
   Event.printLine "3. Extension should automatically activate and highlight mismatches",
   Event.printLine "",
   Event.printLine "⏹️  Press Ctrl+C to stop the server",
   Event.printLine ""]

/-- The fallback note of line 58.  It is a plain string literal in the
source, not an f-string, so the braces around port are literal text. -/
def fallbackNote : String :=
  "ℹ️  Manually open http://localhost:\x7bport\x7d/test-page.html in your browser"

/-- Embeds the inner try of lines 54-58: webbrowser.open followed by a
success print, and on any exception the bare except prints the fallback
note instead. -/
def browserStep (env : Env) (port : Int) : List Event :=
  if env.browserFails then
    [Event.printLine fallbackNote]
  else
    [Event.openBrowser ("http://localhost:" ++ toString port ++ "/test-page.html"),
     Event.printLine "🌐 Opening test page in browser..."]

/-- Embeds the except OSError handler of lines 62-67: a message
containing "Address already in use" gets the port-specific advice,
anything else the generic error print. -/
def osErrorHandler (port : Int) (msg : String) : List Event :=
  if strContainsSub msg "Address already in use" then
    [Event.printLine ("❌ Port " ++ toString port ++ " is already in use"),
     Event.printLine ("💡 Try a different port: python local-test-server.py " ++ toString (port + 1))]
  else
    [Event.printLine ("❌ Error starting server: " ++ msg)]

/-- Embeds start_test_server (lines 28-69).  The marker-file check runs
first; then TCPServer construction, the banner prints, the browser
attempt, and serve_forever, which blocks until env.serveExn is raised;
except OSError and except KeyboardInterrupt wrap the whole try block, and
any other exception escapes uncaught. -/
def start_test_server (env : Env) (port : Int) : List Event × Outcome :=
  if env.testPageExists = false then
    ([Event.printLine "❌ test-page.html not found in current directory",
      Event.printLine "💡 Make sure you're running this from the project root directory"],
     Outcome.returned)
  else
    match tcpServerCreate env port with
    | some (PyExn.osError msg) => (osErrorHandler port msg, Outcome.returned)
    | some PyExn.keyboardInterrupt =>
        ([Event.printLine "\n⏹️  Server stopped by user"], Outcome.returned)
    | some PyExn.overflowError => ([], Outcome.uncaught PyExn.overflowError)
    | none =>
      let pre := Event.bindSocket port :: startupBanner port
                   ++ browserStep env port ++ [Event.serveForever]
      match env.serveExn with
      | PyExn.osError msg => (pre ++ osErrorHandler port msg, Outcome.returned)
      | PyExn.keyboardInterrupt =>
          (pre ++ [Event.printLine "\n⏹️  Server stopped by user"], Outcome.returned)
      | PyExn.overflowError => (pre, Outcome.uncaught PyExn.overflowError)

/-- A normal return from start_test_server lets the script fall off its
end, so the interpreter exits with status 0; an uncaught exception kills
the process with a traceback. -/
def outcomeToProc : Outcome → ProcResult
  | Outcome.returned => ProcResult.exited 0
  | Outcome.uncaught e => ProcResult.crashed e

/-- Whitespace characters stripped by Python's int() around the digits. -/
def isSpaceChar (c : Char) : Bool :=
  c = ' ' || c = '\t' || c = '\n' || c = '\r' || c = '\x0b' || c = '\x0c'

/-- Digit run of a Python int literal after its first digit: decimal
digits, with a single underscore allowed only between two digits. -/
def pyIntDigits (acc : Nat) : List Char → Option Nat
  | [] => some acc
  | c :: cs =>
    if c.isDigit then pyIntDigits (acc * 10 + (c.toNat - 48)) cs
    else if c = '_' then
      match cs with
      | [] => none
      | d :: rest =>
        if d.isDigit then pyIntDigits (acc * 10 + (d.toNat - 48)) rest
        else none
    else none

/-- Unsigned body of a Python int literal: nonempty and starting with a
digit. -/
def pyIntCore : List Char → Option Nat
  | [] => none
  | c :: cs => if c.isDigit then pyIntDigits (c.toNat - 48) cs else none

/-- Embeds Python's int(s) on the script's command-line argument:
surrounding whitespace is stripped, an optional sign precedes the digits,
and anything else raises ValueError (none). -/
def pyInt (s : String) : Option Int :=
  let cs := ((s.toList.dropWhile isSpaceChar).reverse.dropWhile isSpaceChar).reverse
  match cs with
  | '+' :: rest => (pyIntCore rest).map (fun n => (n : Int))
  | '-' :: rest => (pyIntCore rest).map (fun n => -(n : Int))
  | rest => (pyIntCore rest).map (fun n => (n : Int))

/-- Embeds the main block (lines 71-80) on the full sys.argv: with a
second element present, int-parse it, printing and sys.exit(1) on
ValueError; otherwise the port defaults to 8000. -/
def scriptMain (env : Env) (argv : List String) : List Event × ProcResult :=
  match argv with
  | _ :: a :: _ =>
    match pyInt a with
    | none => ([Event.printLine "❌ Invalid port number"], ProcResult.exited 1)
    | some p =>
      let r := start_test_server env p
      (r.1, outcomeToProc r.2)
  | _ =>
    let r := start_test_server env 8000
    (r.1, outcomeToProc r.2)

/-- True exactly on print events, to state that a trace consists of
messages only (no socket, browser or serve activity). -/
def isPrintEvent : Event → Bool
  | Event.printLine _ => true
  | _ => false

/-- Process state visible to a request handler; the script never calls
os.chdir, so cwd is the only field and no transition writes it. -/
structure ProcState where
  cwd : String
deriving Repr

/-- Configuration a DSPTestHandler instance is constructed with. -/
structure HandlerCfg where
  directory : String
deriving Repr, DecidableEq

/-- An incoming HTTP request, identified by method and path. -/
structure Request where
  method : String
  path : String
deriving Repr

/-- Embeds DSPTestHandler.__init__ (lines 15-16): the handler is built
once per request with directory=os.getcwd() read at that moment. -/
def DSPTestHandler_init (s : ProcState) : HandlerCfg :=
  { directory := s.cwd }

/-- Handling one request: a fresh handler is constructed from the current
process state; neither DSPTestHandler nor the SimpleHTTPRequestHandler
machinery it inherits changes the working directory, so the state after
the request is the state before it. -/
def handleOne (s : ProcState) (_r : Request) : HandlerCfg × ProcState :=
  (DSPTestHandler_init s, s)

/-- The serve loop over a finite batch of requests, threading the process
state from each request into the next. -/
def handleAll (s : ProcState) : List Request → List HandlerCfg
  | [] => []
  | r :: rs =>
    let p := handleOne s r
    p.1 :: handleAll p.2 rs

/-- C1: every HTTP response the server produces carries the headers
Access-Control-Allow-Origin: *, Access-Control-Allow-Methods: GET, POST,
OPTIONS and Access-Control-Allow-Headers: Content-Type with those exact
literal values, regardless of the request method or path and of whatever
headers the base library queued for the response. -/
theorem c1_cors_headers_on_every_response
    (libHeaders : String → String → List (String × String))
    (method path : String) :
    ("Access-Control-Allow-Origin", "*") ∈ responseHeaders libHeaders method path ∧
    ("Access-Control-Allow-Methods", "GET, POST, OPTIONS") ∈ responseHeaders libHeaders method path ∧
    ("Access-Control-Allow-Headers", "Content-Type") ∈ responseHeaders libHeaders method path := by
  refine ⟨?_, ?_, ?_⟩ <;>
    simp [responseHeaders, DSPTestHandler_end_headers, corsHeaders]

/-- C2: when test-page.html does not exist in the working directory,
start_test_server prints the problem and a hint and returns; the trace is
exactly those two print events, so no socket is created, no port is bound
and the serve loop is never entered. -/
theorem c2_missing_marker_aborts (env : Env) (port : Int)
    (h : env.testPageExists = false) :
    start_test_server env port =
      ([Event.printLine "❌ test-page.html not found in current directory",
        Event.printLine "💡 Make sure you're running this from the project root directory"],
       Outcome.returned) ∧
    (start_test_server env port).1.all isPrintEvent = true := by
  refine ⟨by simp [start_test_server, h], ?_⟩
  simp [start_test_server, h, isPrintEvent]

/-- C2 witness: a concrete environment without the marker file, at port
8000. -/
theorem c2_missing_marker_aborts_witness :
    (Env.mk false none false PyExn.keyboardInterrupt).testPageExists = false ∧
    (start_test_server (Env.mk false none false PyExn.keyboardInterrupt) 8000 =
      ([Event.printLine "❌ test-page.html not found in current directory",
        Event.printLine "💡 Make sure you're running this from the project root directory"],
       Outcome.returned) ∧
     (start_test_server (Env.mk false none false PyExn.keyboardInterrupt) 8000).1.all isPrintEvent = true) :=
  ⟨rfl, c2_missing_marker_aborts (Env.mk false none false PyExn.keyboardInterrupt) 8000 rfl⟩

/-- C6: every request handled during a run is served by a handler whose
directory is the process's working directory as it was at the start of
the run; the serving root never changes between requests. -/
theorem c6_serving_root_fixed (s : ProcState) (reqs : List Request)
    (cfg : HandlerCfg) (h : cfg ∈ handleAll s reqs) :
    cfg.directory = s.cwd := by
  induction reqs with
  | nil => simp [handleAll] at h
  | cons r rs ih =>
    simp only [handleAll, handleOne, DSPTestHandler_init, List.mem_cons] at h
    rcases h with h | h
    · rw [h]
    · exact ih h

/-- C6 witness: one concrete request against a concrete starting state. -/
theorem c6_serving_root_fixed_witness :
    HandlerCfg.mk "/srv/app" ∈
      handleAll (ProcState.mk "/srv/app") [Request.mk "GET" "/test-page.html"] ∧
    (HandlerCfg.mk "/srv/app").directory = (ProcState.mk "/srv/app").cwd :=
  ⟨by simp [handleAll, handleOne, DSPTestHandler_init],
   c6_serving_root_fixed (ProcState.mk "/srv/app")
     [Request.mk "GET" "/test-page.html"] (HandlerCfg.mk "/srv/app")
     (by simp [handleAll, handleOne, DSPTestHandler_init])⟩

/-- C7: for every request, the line produced by the default library
logging path is the decorative emoji prefix followed by the library's
default formatted log line content (quoted request line, status code,
size). -/
theorem c7_logged_line_is_prefix_plus_default (r c s : String) :
    log_request r c s = some ("🌐 \x22" ++ r ++ "\x22 " ++ c ++ " " ++ s) := by
  have h1 : log_request r c s =
      some ("🌐 " ++ (String.singleton '\x22' ++ (r ++ (String.singleton '\x22' ++
        (String.singleton ' ' ++ (c ++ (String.singleton ' ' ++ (s ++ "")))))))) := rfl
  rw [h1]
  refine congrArg some (String.ext ?_)
  simp [List.append_assoc]

/-- C3: when the marker file exists, the port is in socket range, and the
bind raises an OSError whose message contains "Address already in use",
start_test_server produces exactly two prints, one naming the port and
one suggesting port + 1, and returns; the trace holds no bindSocket and
no serveForever event, so the server never falls back to another port. -/
theorem c3_port_in_use_reported (env : Env) (port : Int) (msg : String)
    (h1 : env.testPageExists = true) (h2 : 0 ≤ port) (h3 : port ≤ 65535)
    (h4 : env.bindOutcome = some (PyExn.osError msg))
    (h5 : strContainsSub msg "Address already in use" = true) :
    start_test_server env port =
      ([Event.printLine ("❌ Port " ++ toString port ++ " is already in use"),
        Event.printLine ("💡 Try a different port: python local-test-server.py " ++ toString (port + 1))],
       Outcome.returned) := by
  have hcond : (decide (port < 0) || decide (port > 65535)) = false := by
    simp only [Bool.or_eq_false_iff, decide_eq_false_iff_not, not_lt]
    omega
  have hc : tcpServerCreate env port = some (PyExn.osError msg) := by
    simp [tcpServerCreate, hcond, h4]
  simp [start_test_server, h1, hc, osErrorHandler, h5]

/-- C3 witness: port 8000 already bound, with the standard CPython
EADDRINUSE message. -/
theorem c3_port_in_use_reported_witness :
    ((Env.mk true (some (PyExn.osError "[Errno 98] Address already in use")) false PyExn.keyboardInterrupt).testPageExists = true ∧
     (0 : Int) ≤ 8000 ∧ (8000 : Int) ≤ 65535 ∧
     (Env.mk true (some (PyExn.osError "[Errno 98] Address already in use")) false PyExn.keyboardInterrupt).bindOutcome
       = some (PyExn.osError "[Errno 98] Address already in use") ∧
     strContainsSub "[Errno 98] Address already in use" "Address already in use" = true) ∧
    start_test_server (Env.mk true (some (PyExn.osError "[Errno 98] Address already in use")) false PyExn.keyboardInterrupt) 8000 =
      ([Event.printLine ("❌ Port " ++ toString (8000 : Int) ++ " is already in use"),
        Event.printLine ("💡 Try a different port: python local-test-server.py " ++ toString ((8000 : Int) + 1))],
       Outcome.returned) :=
  ⟨⟨rfl, by decide, by decide, rfl, by decide⟩,
   c3_port_in_use_reported
     (Env.mk true (some (PyExn.osError "[Errno 98] Address already in use")) false PyExn.keyboardInterrupt)
     8000 "[Errno 98] Address already in use"
     rfl (by decide) (by decide) rfl (by decide)⟩

/-- C4: a first positional argument that Python's int() rejects makes the
program print the invalid-port error and exit with status 1, with no
other event, so no server logic runs; and with no argument the script
runs start_test_server at the default port 8000. -/
theorem c4_invalid_port_argument_exits_nonzero (env : Env) (prog a : String)
    (rest : List String) (h : pyInt a = none) :
    scriptMain env (prog :: a :: rest) =
      ([Event.printLine "❌ Invalid port number"], ProcResult.exited 1) ∧
    (scriptMain env [prog]).1 = (start_test_server env 8000).1 ∧
    (scriptMain env [prog]).2 = outcomeToProc (start_test_server env 8000).2 := by
  refine ⟨?_, rfl, rfl⟩
  simp [scriptMain, h]

/-- C4 witness: the non-numeric argument abc. -/
theorem c4_invalid_port_argument_exits_nonzero_witness :
    pyInt "abc" = none ∧
    (scriptMain (Env.mk true none false PyExn.keyboardInterrupt) ["local-test-server.py", "abc"] =
      ([Event.printLine "❌ Invalid port number"], ProcResult.exited 1) ∧
     (scriptMain (Env.mk true none false PyExn.keyboardInterrupt) ["local-test-server.py"]).1 =
       (start_test_server (Env.mk true none false PyExn.keyboardInterrupt) 8000).1 ∧
     (scriptMain (Env.mk true none false PyExn.keyboardInterrupt) ["local-test-server.py"]).2 =
       outcomeToProc (start_test_server (Env.mk true none false PyExn.keyboardInterrupt) 8000).2) :=
  ⟨by decide,
   c4_invalid_port_argument_exits_nonzero (Env.mk true none false PyExn.keyboardInterrupt)
     "local-test-server.py" "abc" [] (by decide)⟩

/-- C5: on the missing-marker-file path and on every bind OSError path
(port in use included), start_test_server returns normally after printing
messages only, and the process then terminates with exit status 0. -/
theorem c5_startup_failures_exit_zero (env : Env) (port : Int)
    (h : env.testPageExists = false ∨
         (env.testPageExists = true ∧
          ∃ msg, tcpServerCreate env port = some (PyExn.osError msg))) :
    (start_test_server env port).2 = Outcome.returned ∧
    outcomeToProc (start_test_server env port).2 = ProcResult.exited 0 ∧
    (start_test_server env port).1.all isPrintEvent = true ∧
    (start_test_server env port).1 ≠ [] := by
  rcases h with h | ⟨h1, msg, h2⟩
  · simp [start_test_server, h, isPrintEvent, outcomeToProc]
  · have hs : start_test_server env port = (osErrorHandler port msg, Outcome.returned) := by
      simp [start_test_server, h1, h2]
    rw [hs]
    refine ⟨rfl, rfl, ?_, ?_⟩
    · unfold osErrorHandler; split <;> simp [isPrintEvent]
    · unfold osErrorHandler; split <;> simp

/-- C5 witness: the missing-marker-file path at port 8000. -/
theorem c5_startup_failures_exit_zero_witness :
    ((Env.mk false none false PyExn.keyboardInterrupt).testPageExists = false ∨
     ((Env.mk false none false PyExn.keyboardInterrupt).testPageExists = true ∧
      ∃ msg, tcpServerCreate (Env.mk false none false PyExn.keyboardInterrupt) 8000 = some (PyExn.osError msg))) ∧
    ((start_test_server (Env.mk false none false PyExn.keyboardInterrupt) 8000).2 = Outcome.returned ∧
     outcomeToProc (start_test_server (Env.mk false none false PyExn.keyboardInterrupt) 8000).2 = ProcResult.exited 0 ∧
     (start_test_server (Env.mk false none false PyExn.keyboardInterrupt) 8000).1.all isPrintEvent = true ∧
     (start_test_server (Env.mk false none false PyExn.keyboardInterrupt) 8000).1 ≠ []) :=
  ⟨Or.inl rfl,
   c5_startup_failures_exit_zero (Env.mk false none false PyExn.keyboardInterrupt) 8000 (Or.inl rfl)⟩

/-- C8: once the socket is bound, a failing webbrowser.open is caught by
the bare except and the serve loop is still entered; the fallback note is
printed instead of the success message. -/
theorem c8_browser_failure_never_blocks_serving (env : Env) (port : Int)
    (h1 : env.testPageExists = true) (h2 : tcpServerCreate env port = none)
    (h3 : env.browserFails = true) :
    Event.serveForever ∈ (start_test_server env port).1 ∧
    Event.printLine fallbackNote ∈ (start_test_server env port).1 := by
  cases hse : env.serveExn <;>
    simp [start_test_server, h1, h2, hse, browserStep, h3, startupBanner,
      List.mem_append]

/-- C8 witness: a concrete bound server whose browser launch raises. -/
theorem c8_browser_failure_never_blocks_serving_witness :
    ((Env.mk true none true PyExn.keyboardInterrupt).testPageExists = true ∧
     tcpServerCreate (Env.mk true none true PyExn.keyboardInterrupt) 8000 = none ∧
     (Env.mk true none true PyExn.keyboardInterrupt).browserFails = true) ∧
    (Event.serveForever ∈ (start_test_server (Env.mk true none true PyExn.keyboardInterrupt) 8000).1 ∧
     Event.printLine fallbackNote ∈ (start_test_server (Env.mk true none true PyExn.keyboardInterrupt) 8000).1) :=
  ⟨⟨rfl, rfl, rfl⟩,
   c8_browser_failure_never_blocks_serving (Env.mk true none true PyExn.keyboardInterrupt) 8000 rfl rfl rfl⟩

/-- C9: an integer argument outside 0-65535 passes int() parsing, reaches
server creation, and raises OverflowError there; neither except OSError
nor except KeyboardInterrupt matches, so nothing is printed and the
process dies with an uncaught-exception traceback instead of the graceful
bind-error message. -/
theorem c9_out_of_range_port_crashes (env : Env) (prog a : String)
    (rest : List String) (p : Int)
    (h1 : pyInt a = some p) (h2 : p < 0 ∨ 65535 < p)
    (h3 : env.testPageExists = true) :
    scriptMain env (prog :: a :: rest) =
      ([], ProcResult.crashed PyExn.overflowError) := by
  have hcond : (decide (p < 0) || decide (p > 65535)) = true := by
    rcases h2 with h | h <;> simp [h]
  simp [scriptMain, h1, start_test_server, h3, tcpServerCreate, hcond,
    outcomeToProc]

/-- C9 witness: the example argument 70000 from the claim. -/
theorem c9_out_of_range_port_crashes_witness :
    (pyInt "70000" = some 70000 ∧
     ((70000 : Int) < 0 ∨ (65535 : Int) < 70000) ∧
     (Env.mk true none false PyExn.keyboardInterrupt).testPageExists = true) ∧
    scriptMain (Env.mk true none false PyExn.keyboardInterrupt) ["local-test-server.py", "70000"] =
      ([], ProcResult.crashed PyExn.overflowError) :=
  ⟨⟨by decide, Or.inr (by decide), rfl⟩,
   c9_out_of_range_port_crashes (Env.mk true none false PyExn.keyboardInterrupt)
     "local-test-server.py" "70000" [] 70000 (by decide) (Or.inr (by decide)) rfl⟩

/-- C10: when the browser launch fails, the note printed is the fixed
string of line 58, the same for every port: it contains the literal text
left-brace port right-brace (the source line is not an f-string) and no
digit at all, so it never shows the numeric port value. -/
theorem c10_fallback_note_shows_literal_brace_port (env : Env) (port : Int)
    (h1 : env.testPageExists = true) (h2 : tcpServerCreate env port = none)
    (h3 : env.browserFails = true) :
    Event.printLine fallbackNote ∈ (start_test_server env port).1 ∧
    strContainsSub fallbackNote "\x7bport\x7d" = true ∧
    fallbackNote.toList.all (fun ch => !ch.isDigit) = true := by
  refine ⟨?_, by decide, by decide⟩
  cases hse : env.serveExn <;>
    simp [start_test_server, h1, h2, hse, browserStep, h3, startupBanner,
      List.mem_append]

/-- C10 witness: concrete failing browser launch at port 9100. -/
theorem c10_fallback_note_shows_literal_brace_port_witness :
    ((Env.mk true none true PyExn.keyboardInterrupt).testPageExists = true ∧
     tcpServerCreate (Env.mk true none true PyExn.keyboardInterrupt) 9100 = none ∧
     (Env.mk true none true PyExn.keyboardInterrupt).browserFails = true) ∧
    (Event.printLine fallbackNote ∈ (start_test_server (Env.mk true none true PyExn.keyboardInterrupt) 9100).1 ∧
     strContainsSub fallbackNote "\x7bport\x7d" = true ∧
     fallbackNote.toList.all (fun ch => !ch.isDigit) = true) :=
  ⟨⟨rfl, rfl, rfl⟩,
   c10_fallback_note_shows_literal_brace_port (Env.mk true none true PyExn.keyboardInterrupt) 9100 rfl rfl rfl⟩

end LocalTestServer
